import Mathlib

/-!
Verification of the rusnake grid-snake simulation (src/main.rs) against its
natural-language specification.

The Bevy systems are shallowly embedded as pure Lean functions over an explicit
`GameState`.  Positions are pairs of integers: every translation the program
ever writes is of the form `k * 50 + 25 - w/2` or `k * 50 + 25`, all exactly
representable in `f32`/`f64`, so integer arithmetic models the float
arithmetic exactly.  The z coordinate (render layer) is constant `1.0` on
every snake segment and is never compared against a differing value on the
paths modelled here, so positions are 2-dimensional.

The per-frame system order embedded below is the linearization demanded by the
schedule constraints in `main` (`spawn_new_tail` before `Labels::HeadMove`,
`track_step_time` = `Labels::UPDATE` before `move_snake`) completed, where the
schedule leaves the order open, by the strict phase order stated in the spec:
tick gate, spawn, direction resolver, body advance, eat/food placement,
collision check.  Commands issued by `spawn_new_tail` are applied at the end
of the frame, so for the remainder of the frame the freshly pushed entity has
no `Transform` yet and every `body_query.get` on it fails; the boolean
`spawnedThisFrame` threads that fact through the later phases.

Randomness (`rand::thread_rng().gen_range`) is modelled as an explicit oracle
stream of tile-index pairs, and the unbounded rejection loop in `eat_food`
takes explicit fuel and returns `Option`.
-/

namespace Rusnake

/-- `Direction` from src/main.rs. -/
inductive Direction : Type
  | UP
  | DOWN
  | LEFT
  | RIGHT
  | NONE
deriving DecidableEq, Repr

/-- A grid position: the x and y of a `Transform` translation. -/
abbrev Pos : Type := Int × Int

/-- `GRID_SIZE` (50.0 in the source; exact in f32). -/
def GRID_SIZE : Int := 50

/-- `TIME_STEP` (0.25_f32, cast to f64 in `track_step_time`; exactly 1/4). -/
def TIME_STEP : ℚ := 1 / 4

/-- `DirectionVelocityMap::new`: each direction's unit displacement vector. -/
def directionVelocityMap : Direction → Int × Int
  | Direction.UP => (0, 1)
  | Direction.DOWN => (0, -1)
  | Direction.LEFT => (-1, 0)
  | Direction.RIGHT => (1, 0)
  | Direction.NONE => (0, 0)

/-- `track_step_time`: given the current time and the last-update time, fire a
tick (returning the new last-update time and the tick flag) when
`now - last > TIME_STEP`, else leave the last-update time unchanged. -/
def track_step_time (now last : ℚ) : ℚ × Bool :=
  if now - last > TIME_STEP then (now, true) else (last, false)

/-- The per-frame keyboard state polled by `get_next_move` (`kb.pressed` on
`A`, `D`, `W`, `S`). -/
structure Keys where
  a : Bool
  d : Bool
  w : Bool
  s : Bool
deriving DecidableEq, Repr

/-- No key pressed. -/
def keysNone : Keys := ⟨false, false, false, false⟩

/-- `get_next_move`: update the pending direction from the keyboard, refusing
a request that is the exact reverse of the committed `velocity` direction. -/
def get_next_move (kb : Keys) (velocity nextDirection : Direction) : Direction :=
  if kb.a = true ∧ velocity ≠ Direction.RIGHT then Direction.LEFT
  else if kb.d = true ∧ velocity ≠ Direction.LEFT then Direction.RIGHT
  else if kb.w = true ∧ velocity ≠ Direction.DOWN then Direction.UP
  else if kb.s = true ∧ velocity ≠ Direction.UP then Direction.DOWN
  else nextDirection

/-- One movement step of the head: `translation += velocity * GRID_SIZE`. -/
def applyVelocity (d : Direction) (p : Pos) : Pos :=
  (p.1 + (directionVelocityMap d).1 * GRID_SIZE,
   p.2 + (directionVelocityMap d).2 * GRID_SIZE)

/-- The tail-propagation loop of `move_snake`: `position_for_next` is carried
through the iteration; each segment takes the carried value and donates its
old position to the next.  The initial carried value is the head translation
read AFTER the head was moved (line 253 of the source runs after lines
247-250). -/
def propagateTail (prev : Pos) : List Pos → List Pos
  | [] => []
  | p :: rest => prev :: propagateTail p rest

/-- The chain update of `move_snake` on fully queryable segments: move the
head by the committed direction, then run the carried-position propagation
over the rest, starting from the head's post-move position. -/
def moveChain (d : Direction) : List Pos → List Pos
  | [] => []
  | hd :: tl => applyVelocity d hd :: propagateTail (applyVelocity d hd) tl

/-- The mutable simulation state: `entity_vector` with each entity's
translation (head first), the head's `Velocity` and `NextDirection`, the food
translation, and the `LateSpawn` resource (`translation`, `spawn`, `wait`). -/
structure GameState where
  chain : List Pos
  velocity : Direction
  nextDir : Direction
  food : Pos
  spawnPos : Pos
  spawnFlag : Bool
  wait : Bool
deriving DecidableEq, Repr

/-- State installed by `setup_system` / `initialize_snake` / `initialize_food`:
head at `(25, 25)` with direction `NONE`, food at `(75, 75)`, `LateSpawn`
cleared with `wait = true`. -/
def initialState : GameState :=
  { chain := [(GRID_SIZE / 2, GRID_SIZE / 2)]
    velocity := Direction.NONE
    nextDir := Direction.NONE
    food := (GRID_SIZE / 2 + GRID_SIZE, GRID_SIZE / 2 + GRID_SIZE)
    spawnPos := (0, 0)
    spawnFlag := false
    wait := true }

/-- `spawn_new_tail`.  Runs only on a due tick.  If a growth is pending and
the current last segment has left the recorded cell: when `wait` is still set
it only clears `wait`; otherwise it pushes a new segment AT THE CURRENT LAST
SEGMENT'S POSITION (the source spawns with
`translation: last_transform.translation`, line 341), clears the pending
flag, sets `wait := true` inside the spawn branch and then unconditionally
clears it again on the way out (line 353), so `wait` ends `false`.  The
returned boolean records whether an entity was pushed this frame (its
`Transform` is not yet queryable). -/
def spawn_new_tail (tickAllowed : Bool) (s : GameState) : GameState × Bool :=
  if tickAllowed = true then
    match s.chain.getLast? with
    | none => (s, false)
    | some lastPos =>
      if s.spawnFlag = true ∧ lastPos ≠ s.spawnPos then
        if s.wait = true then ({ s with wait := false }, false)
        else ({ s with chain := s.chain ++ [lastPos], spawnFlag := false, wait := false }, true)
      else (s, false)
  else (s, false)

/-- `move_snake` as a whole-state phase (only invoked on a due tick): commit
`velocity := nextDir`, move the head, propagate.  A segment pushed this frame
has no `Transform` yet, so the `if let Ok` in the loop skips it: the rest of
the chain moves and the newborn last entry keeps its position. -/
def move_snake (spawnedThisFrame : Bool) (s : GameState) : GameState :=
  if spawnedThisFrame = true then
    { s with velocity := s.nextDir
             chain := moveChain s.nextDir s.chain.dropLast ++ s.chain.getLast?.toList }
  else
    { s with velocity := s.nextDir, chain := moveChain s.nextDir s.chain }

/-- The segments whose `Transform` a `body_query.get` can see this frame:
all of them, except a last entry pushed by `spawn_new_tail` this frame. -/
def queryable (spawnedThisFrame : Bool) (c : List Pos) : List Pos :=
  if spawnedThisFrame = true then c.dropLast else c

/-- The cell the food is moved to for a sampled pair of tile indices:
`tile * GRID_SIZE - win/2 + GRID_SIZE/2` in each axis. -/
def cellOfTile (w h : Int) (t : ℕ × ℕ) : Pos :=
  ((t.1 : Int) * GRID_SIZE - w / 2 + GRID_SIZE / 2,
   (t.2 : Int) * GRID_SIZE - h / 2 + GRID_SIZE / 2)

/-- The rejection-sampling loop of `eat_food`: while the food cell matches
some queryable segment, replace it by the cell of the next sampled tile pair
(the source breaks at the first colliding segment, resamples both axes and
rescans, which commits exactly when a full scan finds no match).  `fuel`
bounds the number of resamples; the source loop is unbounded, so `none`
models non-termination within the given fuel. -/
def relocateFood (w h : Int) (occ : List Pos) (stream : ℕ → ℕ × ℕ) :
    ℕ → Pos → ℕ → Option Pos
  | 0, food, _ => if food ∈ occ then none else some food
  | Nat.succ fuel, food, k =>
    if food ∈ occ then relocateFood w h occ stream fuel (cellOfTile w h (stream k)) (k + 1)
    else some food

/-- `eat_food`.  NOT tick-gated: runs every frame.  If the head translation
equals the food translation: record the current last segment's position into
`LateSpawn` and arm it (skipped if the last entity was pushed this frame,
since its `body_query.get` fails), then run the rejection loop to move the
food off every queryable segment.  `none` models a panic (empty
`entity_vector`) or relocation fuel exhaustion. -/
def eat_food (w h : Int) (fuel : ℕ) (stream : ℕ → ℕ × ℕ)
    (spawnedThisFrame : Bool) (s : GameState) : Option GameState :=
  match s.chain.head? with
  | none => none
  | some headPos =>
    if headPos = s.food then
      let s1 : GameState :=
        if spawnedThisFrame = true then s
        else
          match s.chain.getLast? with
          | none => s
          | some lastPos => { s with spawnFlag := true, spawnPos := lastPos }
      match relocateFood w h (queryable spawnedThisFrame s.chain) stream fuel s.food 0 with
      | none => none
      | some f2 => some { s1 with food := f2 }
    else some s

/-- The wall test of `collision_check`: the head translation lies strictly
beyond half the window size on any of the four edges. -/
abbrev outOfBounds (w h : Int) (p : Pos) : Prop :=
  p.1 > w / 2 ∨ p.1 < -(w / 2) ∨ p.2 > h / 2 ∨ p.2 < -(h / 2)

/-- `collision_check` (only invoked on a due tick): the head hit a wall, or
the head translation equals the translation of some entity of
`entity_vector[2..]` (a newborn last entry is skipped by its failing
`body_query.get`); if so, every entity but the head is despawned and
`entity_vector` is truncated to its first element. -/
def collision_check (w h : Int) (spawnedThisFrame : Bool) (s : GameState) :
    Option GameState :=
  match s.chain.head? with
  | none => none
  | some headPos =>
    if outOfBounds w h headPos ∨ headPos ∈ queryable spawnedThisFrame (s.chain.drop 2)
    then some { s with chain := s.chain.take 1 }
    else some s

/-- The condition under which `collision_check` despawns the body (and plays
the game-over sound): the observable "Terminated" transition. -/
def detectorFires (w h : Int) (spawnedThisFrame : Bool) (s : GameState) : Prop :=
  ∃ headPos, s.chain.head? = some headPos ∧
    (outOfBounds w h headPos ∨ headPos ∈ queryable spawnedThisFrame (s.chain.drop 2))

/-- One whole frame at a known tick-gate outcome `tickAllowed`:
`spawn_new_tail`, then `get_next_move`, then (if due) `move_snake`, then
`eat_food` (every frame), then (if due) `collision_check`. -/
def stepFrame (w h : Int) (fuel : ℕ) (stream : ℕ → ℕ × ℕ) (kb : Keys)
    (tickAllowed : Bool) (s : GameState) : Option GameState :=
  let p := spawn_new_tail tickAllowed s
  let s2 := { p.1 with nextDir := get_next_move kb p.1.velocity p.1.nextDir }
  let s3 := if tickAllowed = true then move_snake p.2 s2 else s2
  match eat_food w h fuel stream p.2 s3 with
  | none => none
  | some s4 => if tickAllowed = true then collision_check w h p.2 s4 else some s4

/-- Run `n` consecutive due-tick frames with no key pressed; frame number `i`
draws its food-relocation samples from `streams i`. -/
def runDueTicks (w h : Int) (fuel : ℕ) (streams : ℕ → ℕ → ℕ × ℕ) (kb : Keys) :
    ℕ → ℕ → GameState → Option GameState
  | _, 0, s => some s
  | i, Nat.succ n, s =>
    match stepFrame w h fuel (streams i) kb true s with
    | none => none
    | some s2 => runDueTicks w h fuel streams kb (i + 1) n s2

/-- Divergence of the food rejection loop on a sample stream that only ever
proposes the occupied cell `(25,25)` (tile `(8,6)` of the 800×600 window):
no amount of fuel makes the loop commit. -/
def relocationNeverCommits : Prop :=
  ∀ fuel k : ℕ,
    relocateFood 800 600 [((25 : Int), (25 : Int))] (fun _ => (8, 6)) fuel (25, 25) k = none

/-! ## Helper lemmas -/

lemma propagateTail_length (prev : Pos) (l : List Pos) :
    (propagateTail prev l).length = l.length := by
  induction l generalizing prev with
  | nil => rfl
  | cons p rest ih => simp [propagateTail, ih]

lemma propagateTail_get (l : List Pos) :
    ∀ (prev : Pos) (i : ℕ), i + 1 < l.length →
      (propagateTail prev l).get? (i + 1) = l.get? i := by
  induction l with
  | nil => intro prev i hlt; simp at hlt
  | cons p rest ih =>
    intro prev i hlt
    cases i with
    | zero =>
      cases rest with
      | nil => simp at hlt
      | cons q rest2 => rfl
    | succ j =>
      have h2 : j + 1 < rest.length := by
        simp only [List.length_cons] at hlt
        omega
      simpa [propagateTail] using ih p j h2

lemma collision_check_eq (w h : Int) (sp : Bool) (s : GameState) (headPos : Pos)
    (hh : s.chain.head? = some headPos) :
    collision_check w h sp s =
      if outOfBounds w h headPos ∨ headPos ∈ queryable sp (s.chain.drop 2)
      then some { s with chain := s.chain.take 1 } else some s := by
  unfold collision_check
  rw [hh]

lemma get_next_move_none (v nd : Direction) : get_next_move keysNone v nd = nd := rfl

lemma move_snake_false (s : GameState) :
    move_snake false s =
      { s with velocity := s.nextDir, chain := moveChain s.nextDir s.chain } := rfl

lemma move_snake_true (s : GameState) :
    move_snake true s =
      { s with velocity := s.nextDir
               chain := moveChain s.nextDir s.chain.dropLast ++ s.chain.getLast?.toList } := rfl

lemma stepFrame_not_due (w h : Int) (fuel : ℕ) (stream : ℕ → ℕ × ℕ) (kb : Keys)
    (s : GameState) :
    stepFrame w h fuel stream kb false s =
      match eat_food w h fuel stream false
          { s with nextDir := get_next_move kb s.velocity s.nextDir } with
      | none => none
      | some s4 => some s4 := rfl

lemma stepFrame_due_eq (w h : Int) (fuel : ℕ) (stream : ℕ → ℕ × ℕ) (kb : Keys)
    (s : GameState) :
    stepFrame w h fuel stream kb true s =
      match eat_food w h fuel stream (spawn_new_tail true s).2
          (move_snake (spawn_new_tail true s).2
            { (spawn_new_tail true s).1 with
                nextDir := get_next_move kb (spawn_new_tail true s).1.velocity
                  (spawn_new_tail true s).1.nextDir }) with
      | none => none
      | some s4 => collision_check w h (spawn_new_tail true s).2 s4 := rfl

lemma spawn_new_tail_eq (s : GameState) (lp : Pos) (hg : s.chain.getLast? = some lp) :
    spawn_new_tail true s =
      if s.spawnFlag = true ∧ lp ≠ s.spawnPos then
        if s.wait = true then ({ s with wait := false }, false)
        else ({ s with chain := s.chain ++ [lp], spawnFlag := false, wait := false }, true)
      else (s, false) := by
  unfold spawn_new_tail
  rw [if_pos rfl, hg]

lemma spawn_new_tail_noflag (s : GameState) (hs : s.spawnFlag = false) :
    spawn_new_tail true s = (s, false) := by
  cases hg : s.chain.getLast? with
  | none => unfold spawn_new_tail; rw [if_pos rfl, hg]
  | some lp =>
    rw [spawn_new_tail_eq s lp hg, if_neg]
    simp [hs]

lemma eat_food_eq (w h : Int) (fuel : ℕ) (stream : ℕ → ℕ × ℕ) (sp : Bool)
    (s : GameState) (headPos : Pos) (hh : s.chain.head? = some headPos) :
    eat_food w h fuel stream sp s =
      if headPos = s.food then
        match relocateFood w h (queryable sp s.chain) stream fuel s.food 0 with
        | none => none
        | some f2 =>
          some { (if sp = true then s
                  else
                    match s.chain.getLast? with
                    | none => s
                    | some lastPos => { s with spawnFlag := true, spawnPos := lastPos })
                 with food := f2 }
      else some s := by
  unfold eat_food
  rw [hh]

lemma eat_food_skip (w h : Int) (fuel : ℕ) (stream : ℕ → ℕ × ℕ) (sp : Bool)
    (s : GameState) (headPos : Pos)
    (hh : s.chain.head? = some headPos) (hne : headPos ≠ s.food) :
    eat_food w h fuel stream sp s = some s := by
  rw [eat_food_eq w h fuel stream sp s headPos hh, if_neg hne]

lemma relocateFood_first_free (w h : Int) (occ : List Pos) (stream : ℕ → ℕ × ℕ) :
    ∀ (n k : ℕ) (cand : Pos), cand ∈ occ →
      (∀ i, i < n → cellOfTile w h (stream (k + i)) ∈ occ) →
      cellOfTile w h (stream (k + n)) ∉ occ →
      relocateFood w h occ stream (n + 1) cand k =
        some (cellOfTile w h (stream (k + n))) := by
  intro n
  induction n with
  | zero =>
    intro k cand hc hall hfree
    rw [show relocateFood w h occ stream (0 + 1) cand k =
        (if cand ∈ occ then
          relocateFood w h occ stream 0 (cellOfTile w h (stream k)) (k + 1)
         else some cand) from rfl]
    rw [if_pos hc]
    rw [show relocateFood w h occ stream 0 (cellOfTile w h (stream k)) (k + 1) =
        (if cellOfTile w h (stream k) ∈ occ then none
         else some (cellOfTile w h (stream k))) from rfl]
    rw [if_neg (by simpa using hfree)]
    simp
  | succ m ih =>
    intro k cand hc hall hfree
    have hall2 : ∀ i, i < m → cellOfTile w h (stream (k + 1 + i)) ∈ occ := by
      intro i hi
      have hmem := hall (i + 1) (by omega)
      simpa [show k + (i + 1) = k + 1 + i by omega] using hmem
    have hfree2 : cellOfTile w h (stream (k + 1 + m)) ∉ occ := by
      simpa [show k + (m + 1) = k + 1 + m by omega] using hfree
    rw [show relocateFood w h occ stream (m + 1 + 1) cand k =
        (if cand ∈ occ then
          relocateFood w h occ stream (m + 1) (cellOfTile w h (stream k)) (k + 1)
         else some cand) from rfl]
    rw [if_pos hc, ih (k + 1) (cellOfTile w h (stream k)) (hall 0 (by omega)) hall2 hfree2]
    simp [show k + 1 + m = k + (m + 1) by omega]

lemma runDueTicks_succ (w h : Int) (fuel : ℕ) (streams : ℕ → ℕ → ℕ × ℕ) (kb : Keys)
    (i n : ℕ) (s s2 : GameState)
    (hstep : stepFrame w h fuel (streams i) kb true s = some s2) :
    runDueTicks w h fuel streams kb i (n + 1) s =
      runDueTicks w h fuel streams kb (i + 1) n s2 := by
  rw [show runDueTicks w h fuel streams kb i (n + 1) s =
      (match stepFrame w h fuel (streams i) kb true s with
       | none => none
       | some t => runDueTicks w h fuel streams kb (i + 1) n t) from rfl, hstep]

/-! ## Claim theorems -/

/-- Claim C3 (amended): after the advance on a due tick, the SECOND segment's
new position equals the head's POST-move position (the carried value is
initialized from the already-moved head, line 253 of the source); each
segment from the third onward takes the position its immediate predecessor
held before the predecessor moved; for a chain of length 1 only the head
moves. -/
theorem chain_shift_after_advance (d : Direction) (hd : Pos) (tl : List Pos) :
    (moveChain d (hd :: tl)).length = (hd :: tl).length ∧
    (moveChain d (hd :: tl)).get? 0 = some (applyVelocity d hd) ∧
    (tl ≠ [] → (moveChain d (hd :: tl)).get? 1 = some (applyVelocity d hd)) ∧
    (∀ i : ℕ, i + 2 < (hd :: tl).length →
      (moveChain d (hd :: tl)).get? (i + 2) = (hd :: tl).get? (i + 1)) ∧
    moveChain d [hd] = [applyVelocity d hd] := by
  refine ⟨?_, rfl, ?_, ?_, rfl⟩
  · simp [moveChain, propagateTail_length]
  · intro htl
    cases tl with
    | nil => exact absurd rfl htl
    | cons q rest => rfl
  · intro i hlt
    have h2 : i + 1 < tl.length := by
      simp only [List.length_cons] at hlt
      omega
    show (propagateTail (applyVelocity d hd) tl).get? (i + 1) = tl.get? i
    exact propagateTail_get tl _ i h2

/-- Claim C3, counterexample to the claim as stated: advancing the chain
`[(25,25), (-25,25)]` right yields `[(75,25), (75,25)]` — the second segment
receives the head's post-move cell `(75,25)`, not the head's pre-move cell
`(25,25)` that the claim predicts. -/
theorem propagation_second_segment_counterexample :
    moveChain Direction.RIGHT [((25 : Int), (25 : Int)), (-25, 25)] = [(75, 25), (75, 25)] ∧
    moveChain Direction.RIGHT [((25 : Int), (25 : Int)), (-25, 25)] ≠ [(75, 25), (25, 25)] := by
  decide

/-- Claim C3, witness: the amended theorem applied at a concrete chain. -/
theorem chain_shift_after_advance_witness :
    (moveChain Direction.RIGHT [((25 : Int), (25 : Int)), (-25, 25), (-75, 25)]).get? 2 =
      some (-25, 25) ∧
    moveChain Direction.RIGHT [((25 : Int), (25 : Int))] =
      [applyVelocity Direction.RIGHT (25, 25)] := by
  constructor
  · have h := (chain_shift_after_advance Direction.RIGHT (25, 25)
      [(-25, 25), (-75, 25)]).2.2.2.1 0 (by decide)
    simpa using h
  · exact (chain_shift_after_advance Direction.RIGHT (25, 25) []).2.2.2.2

/-- Claim C4 (amended): the tick gate fires exactly when the elapsed time is
STRICTLY GREATER than the fixed step interval (the source compares with `>`);
when it fires the last-tick time becomes the current time, otherwise it is
unchanged. -/
theorem tick_gate_fires_iff_strictly_greater (now last : ℚ) :
    ((track_step_time now last).2 = true ↔ now - last > TIME_STEP) ∧
    (track_step_time now last).1 =
      if (track_step_time now last).2 = true then now else last := by
  by_cases hgt : now - last > TIME_STEP <;> simp [track_step_time, hgt]

/-- Claim C4, counterexample to the claim as stated: with elapsed time equal
to the step interval (`now = TIME_STEP`, `last = 0`, so elapsed ≥ interval),
the gate does NOT fire and the last-tick time stays 0, though the claim says
it must fire. -/
theorem tick_gate_boundary_counterexample :
    TIME_STEP - 0 ≥ TIME_STEP ∧ track_step_time TIME_STEP 0 = (0, false) := by
  constructor
  · norm_num
  · norm_num [track_step_time]

/-- Claim C5 (confirmed): for each committed direction D, a request equal to
D's exact opposite (the key polled for that opposite pressed alone) leaves
the pending next direction unchanged, so the committed direction after the
next resolution is still D and never its opposite. -/
theorem reversal_rejected (nd : Direction) :
    get_next_move ⟨false, false, false, true⟩ Direction.UP nd = nd ∧
    get_next_move ⟨false, false, true, false⟩ Direction.DOWN nd = nd ∧
    get_next_move ⟨true, false, false, false⟩ Direction.RIGHT nd = nd ∧
    get_next_move ⟨false, true, false, false⟩ Direction.LEFT nd = nd := by
  exact ⟨rfl, rfl, rfl, rfl⟩

/-- Claim C10 (confirmed): `NONE` maps to the zero displacement, the head is
created with committed and pending direction `NONE`, and every run of due
ticks with no key pressed leaves the whole initial state — in particular the
head's cell `(25,25)` — unchanged. -/
theorem none_direction_keeps_initial_cell :
    directionVelocityMap Direction.NONE = (0, 0) ∧
    initialState.velocity = Direction.NONE ∧
    initialState.nextDir = Direction.NONE ∧
    initialState.chain = [(25, 25)] ∧
    ∀ (n fuel i : ℕ) (streams : ℕ → ℕ → ℕ × ℕ),
      runDueTicks 800 600 fuel streams keysNone i n initialState = some initialState := by
  refine ⟨rfl, rfl, rfl, by decide, ?_⟩
  intro n
  induction n with
  | zero => intro fuel i streams; rfl
  | succ m ih =>
    intro fuel i streams
    have hstep : stepFrame 800 600 fuel (streams i) keysNone true initialState =
        some initialState := rfl
    simp only [runDueTicks, hstep]
    exact ih fuel (i + 1) streams

/-- Claim C2 (amended): the self-collision scan excludes ONLY the single
chain entry at index 1 immediately behind the head (the source iterates
`entity_vector[2..]`): for an in-bounds head, the detector fires exactly when
the head's cell occurs among the entries from index 2 onward; a head equal to
the index-1 entry alone does not terminate, but — contrary to the claim — a
head equal to the index-2 entry does. -/
theorem self_collision_excludes_only_first_neck
    (w h : Int) (s : GameState) (headPos : Pos)
    (hh : s.chain.head? = some headPos)
    (hin : ¬ outOfBounds w h headPos) :
    (headPos ∈ s.chain.drop 2 →
      collision_check w h false s = some { s with chain := s.chain.take 1 } ∧
      collision_check w h false s ≠ some s) ∧
    (headPos ∉ s.chain.drop 2 → collision_check w h false s = some s) := by
  constructor
  · intro hmem
    have hfire : outOfBounds w h headPos ∨ headPos ∈ queryable false (s.chain.drop 2) :=
      Or.inr (by simpa [queryable] using hmem)
    have hlen : 3 ≤ s.chain.length := by
      have hd2 : s.chain.drop 2 ≠ [] := List.ne_nil_of_mem hmem
      have hpos := List.length_pos.mpr hd2
      simp only [List.length_drop] at hpos
      omega
    constructor
    · rw [collision_check_eq w h false s headPos hh, if_pos hfire]
    · intro heq
      rw [collision_check_eq w h false s headPos hh, if_pos hfire] at heq
      have h2 := congrArg GameState.chain (Option.some.inj heq)
      simp only at h2
      have h3 := congrArg List.length h2
      simp only [List.length_take] at h3
      omega
  · intro hmem
    have hnot : ¬ (outOfBounds w h headPos ∨
        headPos ∈ queryable false (s.chain.drop 2)) := by
      rintro (hA | hB)
      · exact hin hA
      · exact hmem (by simpa [queryable] using hB)
    rw [collision_check_eq w h false s headPos hh, if_neg hnot]

/-- Claim C2, counterexample to the claim as stated: in the chain
`[(25,25), (75,25), (25,25), (125,25)]` the head equals the entry at chain
index 2 — the second entry immediately behind the head, which the claim says
must NOT by itself terminate — and no entry from index 3 onward matches, yet
`collision_check` despawns the body. -/
theorem self_collision_index_two_counterexample :
    collision_check 800 600 false
      { chain := [(25, 25), (75, 25), (25, 25), (125, 25)], velocity := Direction.RIGHT,
        nextDir := Direction.RIGHT, food := (75, 75), spawnPos := (0, 0),
        spawnFlag := false, wait := true } =
      some { chain := [(25, 25)], velocity := Direction.RIGHT,
             nextDir := Direction.RIGHT, food := (75, 75), spawnPos := (0, 0),
             spawnFlag := false, wait := true } ∧
    ¬ outOfBounds 800 600 (25, 25) ∧
    ((25, 25) : Pos) ∉ ([(25, 25), (75, 25), (25, 25), (125, 25)] : List Pos).drop 3 ∧
    ([(25, 25), (75, 25), (25, 25), (125, 25)] : List Pos).get? 2 = some (25, 25) := by
  decide

/-- Claim C2, witness: the amended theorem applied to a chain whose head
matches index 3 (terminates) and to a chain whose head matches only index 1
(does not terminate). -/
theorem self_collision_excludes_only_first_neck_witness :
    collision_check 800 600 false
      { chain := [(25, 25), (75, 25), (125, 25), (25, 25)], velocity := Direction.RIGHT,
        nextDir := Direction.RIGHT, food := (75, 75), spawnPos := (0, 0),
        spawnFlag := false, wait := true } =
      some { chain := [(25, 25)], velocity := Direction.RIGHT,
             nextDir := Direction.RIGHT, food := (75, 75), spawnPos := (0, 0),
             spawnFlag := false, wait := true } ∧
    collision_check 800 600 false
      { chain := [(25, 25), (25, 25), (75, 25)], velocity := Direction.RIGHT,
        nextDir := Direction.RIGHT, food := (75, 75), spawnPos := (0, 0),
        spawnFlag := false, wait := true } =
      some { chain := [(25, 25), (25, 25), (75, 25)], velocity := Direction.RIGHT,
             nextDir := Direction.RIGHT, food := (75, 75), spawnPos := (0, 0),
             spawnFlag := false, wait := true } := by
  constructor
  · exact ((self_collision_excludes_only_first_neck 800 600
      { chain := [(25, 25), (75, 25), (125, 25), (25, 25)], velocity := Direction.RIGHT,
        nextDir := Direction.RIGHT, food := (75, 75), spawnPos := (0, 0),
        spawnFlag := false, wait := true } (25, 25) rfl (by decide)).1 (by decide)).1
  · exact (self_collision_excludes_only_first_neck 800 600
      { chain := [(25, 25), (25, 25), (75, 25)], velocity := Direction.RIGHT,
        nextDir := Direction.RIGHT, food := (75, 75), spawnPos := (0, 0),
        spawnFlag := false, wait := true } (25, 25) rfl (by decide)).2 (by decide)

/-- Claim C7 (confirmed): on a due tick on which the collision detector
fires (wall or self collision), the chain is truncated to exactly the single
head segment, and the termination handling leaves the head's position and the
committed direction untouched (only `chain` changes in the resulting state). -/
theorem termination_truncates_to_head
    (w h : Int) (sp : Bool) (s : GameState) (headPos : Pos)
    (hh : s.chain.head? = some headPos)
    (hfire : outOfBounds w h headPos ∨ headPos ∈ queryable sp (s.chain.drop 2)) :
    collision_check w h sp s = some { s with chain := [headPos] } ∧
    (collision_check w h sp s).map GameState.velocity = some s.velocity ∧
    (collision_check w h sp s).map (fun t => t.chain.head?) = some (some headPos) := by
  obtain ⟨tl, hc⟩ : ∃ tl, s.chain = headPos :: tl := by
    cases hcc : s.chain with
    | nil => rw [hcc] at hh; simp at hh
    | cons a tl =>
      rw [hcc] at hh
      simp only [List.head?_cons, Option.some.injEq] at hh
      subst hh
      exact ⟨tl, rfl⟩
  have ht : s.chain.take 1 = [headPos] := by rw [hc]; rfl
  have h1 : collision_check w h sp s = some { s with chain := [headPos] } := by
    rw [collision_check_eq w h sp s headPos hh, if_pos hfire, ht]
  refine ⟨h1, ?_, ?_⟩ <;> rw [h1] <;> rfl

/-- Claim C7, witness: the theorem applied to a length-2 chain whose head has
crossed the right wall. -/
theorem termination_truncates_to_head_witness :
    collision_check 800 600 false
      { chain := [(425, 25), (25, 25)], velocity := Direction.RIGHT,
        nextDir := Direction.RIGHT, food := (75, 75), spawnPos := (0, 0),
        spawnFlag := false, wait := true } =
      some { chain := [(425, 25)], velocity := Direction.RIGHT,
             nextDir := Direction.RIGHT, food := (75, 75), spawnPos := (0, 0),
             spawnFlag := false, wait := true } ∧
    (collision_check 800 600 false
      { chain := [(425, 25), (25, 25)], velocity := Direction.RIGHT,
        nextDir := Direction.RIGHT, food := (75, 75), spawnPos := (0, 0),
        spawnFlag := false, wait := true }).map GameState.velocity =
      some Direction.RIGHT := by
  have h := termination_truncates_to_head 800 600 false
    { chain := [(425, 25), (25, 25)], velocity := Direction.RIGHT,
      nextDir := Direction.RIGHT, food := (75, 75), spawnPos := (0, 0),
      spawnFlag := false, wait := true } (425, 25) rfl (Or.inl (by decide))
  exact ⟨h.1, h.2.1⟩

lemma relocationNeverCommits_holds : relocationNeverCommits := by
  intro fuel
  induction fuel with
  | zero => intro k; rfl
  | succ m ih =>
    intro k
    rw [show relocateFood 800 600 [((25 : Int), (25 : Int))] (fun _ => (8, 6))
        (Nat.succ m) (25, 25) k =
        (if ((25 : Int), (25 : Int)) ∈ [((25 : Int), (25 : Int))] then
          relocateFood 800 600 [((25 : Int), (25 : Int))] (fun _ => (8, 6)) m
            (cellOfTile 800 600 (8, 6)) (k + 1)
         else some (25, 25)) from rfl]
    rw [if_pos (by decide),
      show cellOfTile 800 600 (8, 6) = ((25 : Int), (25 : Int)) from by decide]
    exact ih (k + 1)

/-- Claim C6 (amended): the rejection loop commits exactly the FIRST sampled
cell that is free of every queryable segment: if the current food cell is
occupied and the stream's samples hit occupied cells up to index `n` but the
cell of sample `n` is free, the loop terminates within `n+1` resamples and
commits that cell, which matches no segment; every cell of an in-range tile
pair of the 800×600 window lies in the valid column range `[-375, 375]` and
row range `[-275, 275]`.  Termination for EVERY state with a free cell, as
claimed, is false: a stream that never proposes a free cell diverges (see the
counterexample). -/
theorem food_rejection_commits_first_free_sample
    (w h : Int) (occ : List Pos) (stream : ℕ → ℕ × ℕ) (food : Pos) (n : ℕ)
    (hfood : food ∈ occ)
    (hall : ∀ i, i < n → cellOfTile w h (stream i) ∈ occ)
    (hfree : cellOfTile w h (stream n) ∉ occ) :
    relocateFood w h occ stream (n + 1) food 0 = some (cellOfTile w h (stream n)) ∧
    cellOfTile w h (stream n) ∉ occ ∧
    ∀ i j : ℕ, i < 16 → j < 12 →
      -375 ≤ (cellOfTile 800 600 (i, j)).1 ∧ (cellOfTile 800 600 (i, j)).1 ≤ 375 ∧
      -275 ≤ (cellOfTile 800 600 (i, j)).2 ∧ (cellOfTile 800 600 (i, j)).2 ≤ 275 := by
  refine ⟨?_, hfree, ?_⟩
  · have h0 := relocateFood_first_free w h occ stream n 0 food hfood
      (by simpa using hall) (by simpa using hfree)
    simpa using h0
  · intro i j hi hj
    simp only [cellOfTile, GRID_SIZE]
    norm_num
    refine ⟨?_, ?_, ?_, ?_⟩ <;> omega

/-- Claim C6, counterexample to the claim as stated: with only the cell
`(25,25)` occupied — so nearly every in-range cell, e.g. the cell of tile
`(1,1)`, is free — a sample stream that always proposes tile `(8,6)` (the
occupied cell) makes the rejection loop run forever: it commits no cell for
any fuel bound. -/
theorem food_rejection_divergent_stream :
    relocationNeverCommits ∧
    cellOfTile 800 600 (1, 1) ∉ [((25 : Int), (25 : Int))] := by
  exact ⟨relocationNeverCommits_holds, by decide⟩

/-- Claim C6, witness: a free first sample is committed at once. -/
theorem food_rejection_commits_first_free_sample_witness :
    relocateFood 800 600 [((25 : Int), (25 : Int))] (fun _ => (0, 0)) 1 (25, 25) 0 =
      some (cellOfTile 800 600 (0, 0)) ∧
    cellOfTile 800 600 (0, 0) ∉ [((25 : Int), (25 : Int))] := by
  have h := food_rejection_commits_first_free_sample 800 600
    [((25 : Int), (25 : Int))] (fun _ => (0, 0)) (25, 25) 0 (by decide)
    (by intro i hi; exact absurd hi (Nat.not_lt_zero i)) (by decide)
  exact ⟨h.1, h.2.1⟩

/-- Claim C9 (amended): the head-eats-food / food-placement system is NOT
gated by the tick (the source `eat_food` never reads `Tick`), so it runs on
every frame; the claim fails as stated because a frame in which the head's
cell equals the food's cell mutates the food and growth state even when no
tick is due (see the counterexample).  What does hold: on every frame on
which no tick is due and the head's cell differs from the food's cell, the
whole frame leaves the state unchanged except for the direction resolver's
pending direction. -/
theorem eat_phase_noop_without_overlap
    (w h : Int) (fuel : ℕ) (stream : ℕ → ℕ × ℕ) (kb : Keys)
    (s : GameState) (headPos : Pos)
    (hh : s.chain.head? = some headPos) (hne : headPos ≠ s.food) :
    stepFrame w h fuel stream kb false s =
      some { s with nextDir := get_next_move kb s.velocity s.nextDir } := by
  rw [stepFrame_not_due]
  rw [eat_food_skip w h fuel stream false
    { s with nextDir := get_next_move kb s.velocity s.nextDir } headPos hh hne]

/-- Claim C9, counterexample to the claim as stated: on a frame where no tick
is due but the head's cell equals the food's cell, `eat_food` still runs:
it arms the growth latch, records the spawn cell and relocates the food. -/
theorem eat_phase_ungated_counterexample :
    stepFrame 800 600 1 (fun _ => (0, 0)) keysNone false
      { chain := [(25, 25)], velocity := Direction.NONE, nextDir := Direction.NONE,
        food := (25, 25), spawnPos := (0, 0), spawnFlag := false, wait := true } =
      some { chain := [(25, 25)], velocity := Direction.NONE, nextDir := Direction.NONE,
             food := (-375, -275), spawnPos := (25, 25), spawnFlag := true,
             wait := true } := by
  decide

/-- Claim C9, witness: a non-due frame from the initial state (head off the
food) changes nothing. -/
theorem eat_phase_noop_without_overlap_witness :
    stepFrame 800 600 1 (fun _ => (0, 0)) keysNone false initialState =
      some { initialState with
              nextDir := get_next_move keysNone initialState.velocity
                initialState.nextDir } := by
  exact eat_phase_noop_without_overlap 800 600 1 (fun _ => (0, 0)) keysNone
    initialState (25, 25) (by decide) (by decide)

/-- Claim C8 (confirmed): on a due tick, a head cell beyond any of the four
window edges after the advance makes the collision detector fire and truncate
the chain; in particular, a head at the rightmost valid column `x = 375`
(window 800×600) moving Right on a due tick ends the frame with the detector
fired and the chain truncated to the single out-of-bounds head, i.e. length 1
on that same evaluation. -/
theorem wall_collision_terminates :
    (∀ (w h : Int) (sp : Bool) (s : GameState) (headPos : Pos),
      s.chain.head? = some headPos → outOfBounds w h headPos →
      collision_check w h sp s = some { s with chain := s.chain.take 1 }) ∧
    (∀ (y : Int) (v0 : Direction) (p0 fd : Pos) (w0 : Bool) (fuel : ℕ)
        (stream : ℕ → ℕ × ℕ), fd ≠ (425, y) →
      stepFrame 800 600 fuel stream keysNone true
        { chain := [(375, y), (325, y)], velocity := v0, nextDir := Direction.RIGHT,
          food := fd, spawnPos := p0, spawnFlag := false, wait := w0 } =
        some { chain := [(425, y)], velocity := Direction.RIGHT,
               nextDir := Direction.RIGHT, food := fd, spawnPos := p0,
               spawnFlag := false, wait := w0 } ∧
      detectorFires 800 600 false
        { chain := [(425, y), (425, y)], velocity := Direction.RIGHT,
          nextDir := Direction.RIGHT, food := fd, spawnPos := p0,
          spawnFlag := false, wait := w0 }) := by
  constructor
  · intro w h sp s headPos hh hout
    rw [collision_check_eq w h sp s headPos hh, if_pos (Or.inl hout)]
  · intro y v0 p0 fd w0 fuel stream hfd
    constructor
    · rw [stepFrame_due_eq]
      rw [spawn_new_tail_noflag _ rfl]
      simp only [get_next_move_none, move_snake_false, moveChain, propagateTail,
        applyVelocity, directionVelocityMap, GRID_SIZE, add_assoc]
      norm_num
      rw [eat_food_skip 800 600 fuel stream false
        { chain := [(425, y), (425, y)], velocity := Direction.RIGHT,
          nextDir := Direction.RIGHT, food := fd, spawnPos := p0,
          spawnFlag := false, wait := w0 } (425, y) rfl (fun hh => hfd hh.symm)]
      show collision_check 800 600 false
        { chain := [(425, y), (425, y)], velocity := Direction.RIGHT,
          nextDir := Direction.RIGHT, food := fd, spawnPos := p0,
          spawnFlag := false, wait := w0 } = _
      rw [collision_check_eq 800 600 false
        { chain := [(425, y), (425, y)], velocity := Direction.RIGHT,
          nextDir := Direction.RIGHT, food := fd, spawnPos := p0,
          spawnFlag := false, wait := w0 } (425, y) rfl]
      rw [if_pos (Or.inl (Or.inl (by norm_num)))]
      simp
    · exact ⟨(425, y), rfl, Or.inl (Or.inl (by norm_num))⟩

/-- Claim C8, witness: a head over the top edge truncates an arbitrary chain,
and the rightmost-column scenario run at `y = 25`. -/
theorem wall_collision_terminates_witness :
    collision_check 800 600 false
      { chain := [(25, 325), (25, 275)], velocity := Direction.UP,
        nextDir := Direction.UP, food := (75, 75), spawnPos := (0, 0),
        spawnFlag := false, wait := true } =
      some { chain := [(25, 325)], velocity := Direction.UP,
             nextDir := Direction.UP, food := (75, 75), spawnPos := (0, 0),
             spawnFlag := false, wait := true } ∧
    stepFrame 800 600 0 (fun _ => (0, 0)) keysNone true
      { chain := [(375, 25), (325, 25)], velocity := Direction.RIGHT,
        nextDir := Direction.RIGHT, food := (75, 75), spawnPos := (0, 0),
        spawnFlag := false, wait := false } =
      some { chain := [(425, 25)], velocity := Direction.RIGHT,
             nextDir := Direction.RIGHT, food := (75, 75), spawnPos := (0, 0),
             spawnFlag := false, wait := false } := by
  constructor
  · exact wall_collision_terminates.1 800 600 false
      { chain := [(25, 325), (25, 275)], velocity := Direction.UP,
        nextDir := Direction.UP, food := (75, 75), spawnPos := (0, 0),
        spawnFlag := false, wait := true } (25, 325) rfl (by decide)
  · exact (wall_collision_terminates.2 25 Direction.RIGHT (0, 0) (75, 75) false 0
      (fun _ => (0, 0)) (by decide)).1

/-- Claim C1 (amended): eating when the chain has length 1 and the single
(head = tail) cell is `(x, y)` at eat time leads, after exactly THREE
subsequent due ticks — not two — to chain length 2: `spawn_new_tail` runs
before the move, so on the first pending tick the tail still sits on the
recorded cell; the second clears the initial wait latch; the third appends.
Moreover the appended segment is placed at the CURRENT last segment's
position at append time (the source spawns at `last_transform.translation`),
here `(x + 100, y)` when moving straight Right — not at the `(x, y)` recorded
at eat time, which survives only in `LateSpawn.translation`.  Stated for
every run whose relocation commits a food cell off the head's path and whose
head stays inside the window. -/
theorem growth_after_three_due_ticks
    (x y : Int) (v0 : Direction) (p0 c : Pos) (f : ℕ) (streams : ℕ → ℕ → ℕ × ℕ)
    (hb1 : x + 150 ≤ 400) (hb2 : -400 ≤ x + 150) (hb3 : y ≤ 300) (hb4 : -300 ≤ y)
    (hrel : relocateFood 800 600 [(x, y)] (streams 0) (f + 1) (x, y) 0 = some c)
    (hc1 : c ≠ (x + 50, y)) (hc2 : c ≠ (x + 100, y)) (hc3 : c ≠ (x + 150, y)) :
    runDueTicks 800 600 (f + 1) streams keysNone 0 4
      { chain := [(x - 50, y)], velocity := v0, nextDir := Direction.RIGHT,
        food := (x, y), spawnPos := p0, spawnFlag := false, wait := true } =
      some { chain := [(x + 150, y), (x + 100, y)], velocity := Direction.RIGHT,
             nextDir := Direction.RIGHT, food := c, spawnPos := (x, y),
             spawnFlag := false, wait := false } := by
  have hF0 : stepFrame 800 600 (f + 1) (streams 0) keysNone true
      { chain := [(x - 50, y)], velocity := v0, nextDir := Direction.RIGHT,
        food := (x, y), spawnPos := p0, spawnFlag := false, wait := true } =
      some { chain := [(x, y)], velocity := Direction.RIGHT, nextDir := Direction.RIGHT,
             food := c, spawnPos := (x, y), spawnFlag := true, wait := true } := by
    rw [stepFrame_due_eq]
    rw [spawn_new_tail_noflag _ rfl]
    simp only [get_next_move_none, move_snake_false, moveChain, propagateTail,
      applyVelocity, directionVelocityMap, GRID_SIZE, add_assoc]
    norm_num
    have heat : eat_food 800 600 (f + 1) (streams 0) false
        { chain := [(x, y)], velocity := Direction.RIGHT, nextDir := Direction.RIGHT,
          food := (x, y), spawnPos := p0, spawnFlag := false, wait := true } =
        some { chain := [(x, y)], velocity := Direction.RIGHT, nextDir := Direction.RIGHT,
               food := c, spawnPos := (x, y), spawnFlag := true, wait := true } := by
      rw [eat_food_eq 800 600 (f + 1) (streams 0) false
        { chain := [(x, y)], velocity := Direction.RIGHT, nextDir := Direction.RIGHT,
          food := (x, y), spawnPos := p0, spawnFlag := false, wait := true } (x, y) rfl]
      rw [if_pos rfl]
      simp only [queryable]
      norm_num
      rw [hrel]
    rw [heat]
    show collision_check 800 600 false
      { chain := [(x, y)], velocity := Direction.RIGHT, nextDir := Direction.RIGHT,
        food := c, spawnPos := (x, y), spawnFlag := true, wait := true } = _
    rw [collision_check_eq 800 600 false
      { chain := [(x, y)], velocity := Direction.RIGHT, nextDir := Direction.RIGHT,
        food := c, spawnPos := (x, y), spawnFlag := true, wait := true } (x, y) rfl]
    simp
  have hF1 : ∀ st : ℕ → ℕ × ℕ, stepFrame 800 600 (f + 1) st keysNone true
      { chain := [(x, y)], velocity := Direction.RIGHT, nextDir := Direction.RIGHT,
        food := c, spawnPos := (x, y), spawnFlag := true, wait := true } =
      some { chain := [(x + 50, y)], velocity := Direction.RIGHT,
             nextDir := Direction.RIGHT, food := c, spawnPos := (x, y),
             spawnFlag := true, wait := true } := by
    intro st
    rw [stepFrame_due_eq]
    rw [spawn_new_tail_eq
      { chain := [(x, y)], velocity := Direction.RIGHT, nextDir := Direction.RIGHT,
        food := c, spawnPos := (x, y), spawnFlag := true, wait := true } (x, y) rfl,
      if_neg (by simp)]
    simp only [get_next_move_none, move_snake_false, moveChain, propagateTail,
      applyVelocity, directionVelocityMap, GRID_SIZE, add_assoc]
    norm_num
    rw [eat_food_skip 800 600 (f + 1) st false
      { chain := [(x + 50, y)], velocity := Direction.RIGHT, nextDir := Direction.RIGHT,
        food := c, spawnPos := (x, y), spawnFlag := true, wait := true } (x + 50, y) rfl
      (fun hh => hc1 hh.symm)]
    show collision_check 800 600 false
      { chain := [(x + 50, y)], velocity := Direction.RIGHT, nextDir := Direction.RIGHT,
        food := c, spawnPos := (x, y), spawnFlag := true, wait := true } = _
    rw [collision_check_eq 800 600 false
      { chain := [(x + 50, y)], velocity := Direction.RIGHT, nextDir := Direction.RIGHT,
        food := c, spawnPos := (x, y), spawnFlag := true, wait := true } (x + 50, y) rfl]
    simp
  have hF2 : ∀ st : ℕ → ℕ × ℕ, stepFrame 800 600 (f + 1) st keysNone true
      { chain := [(x + 50, y)], velocity := Direction.RIGHT, nextDir := Direction.RIGHT,
        food := c, spawnPos := (x, y), spawnFlag := true, wait := true } =
      some { chain := [(x + 100, y)], velocity := Direction.RIGHT,
             nextDir := Direction.RIGHT, food := c, spawnPos := (x, y),
             spawnFlag := true, wait := false } := by
    intro st
    rw [stepFrame_due_eq]
    rw [spawn_new_tail_eq
      { chain := [(x + 50, y)], velocity := Direction.RIGHT, nextDir := Direction.RIGHT,
        food := c, spawnPos := (x, y), spawnFlag := true, wait := true } (x + 50, y) rfl,
      if_pos ⟨rfl, by intro hh; have h2 := congrArg Prod.fst hh; simp at h2⟩,
      if_pos rfl]
    simp only [get_next_move_none, move_snake_false, moveChain, propagateTail,
      applyVelocity, directionVelocityMap, GRID_SIZE, add_assoc]
    norm_num
    rw [eat_food_skip 800 600 (f + 1) st false
      { chain := [(x + 100, y)], velocity := Direction.RIGHT, nextDir := Direction.RIGHT,
        food := c, spawnPos := (x, y), spawnFlag := true, wait := false } (x + 100, y) rfl
      (fun hh => hc2 hh.symm)]
    show collision_check 800 600 false
      { chain := [(x + 100, y)], velocity := Direction.RIGHT, nextDir := Direction.RIGHT,
        food := c, spawnPos := (x, y), spawnFlag := true, wait := false } = _
    rw [collision_check_eq 800 600 false
      { chain := [(x + 100, y)], velocity := Direction.RIGHT, nextDir := Direction.RIGHT,
        food := c, spawnPos := (x, y), spawnFlag := true, wait := false } (x + 100, y) rfl]
    simp
  have hF3 : ∀ st : ℕ → ℕ × ℕ, stepFrame 800 600 (f + 1) st keysNone true
      { chain := [(x + 100, y)], velocity := Direction.RIGHT, nextDir := Direction.RIGHT,
        food := c, spawnPos := (x, y), spawnFlag := true, wait := false } =
      some { chain := [(x + 150, y), (x + 100, y)], velocity := Direction.RIGHT,
             nextDir := Direction.RIGHT, food := c, spawnPos := (x, y),
             spawnFlag := false, wait := false } := by
    intro st
    rw [stepFrame_due_eq]
    rw [spawn_new_tail_eq
      { chain := [(x + 100, y)], velocity := Direction.RIGHT, nextDir := Direction.RIGHT,
        food := c, spawnPos := (x, y), spawnFlag := true, wait := false } (x + 100, y) rfl,
      if_pos ⟨rfl, by intro hh; have h2 := congrArg Prod.fst hh; simp at h2⟩,
      if_neg (by simp)]
    simp only [get_next_move_none, move_snake_true, moveChain, propagateTail,
      applyVelocity, directionVelocityMap, GRID_SIZE, List.dropLast, List.getLast?,
      Option.toList, add_assoc]
    norm_num
    rw [eat_food_skip 800 600 (f + 1) st true
      { chain := [(x + 150, y), (x + 100, y)], velocity := Direction.RIGHT,
        nextDir := Direction.RIGHT, food := c, spawnPos := (x, y),
        spawnFlag := false, wait := false } (x + 150, y) rfl
      (fun hh => hc3 hh.symm)]
    show collision_check 800 600 true
      { chain := [(x + 150, y), (x + 100, y)], velocity := Direction.RIGHT,
        nextDir := Direction.RIGHT, food := c, spawnPos := (x, y),
        spawnFlag := false, wait := false } = _
    rw [collision_check_eq 800 600 true
      { chain := [(x + 150, y), (x + 100, y)], velocity := Direction.RIGHT,
        nextDir := Direction.RIGHT, food := c, spawnPos := (x, y),
        spawnFlag := false, wait := false } (x + 150, y) rfl]
    rw [if_neg ?hcoll]
    case hcoll =>
      rintro (hout | hmem)
      · rcases hout with h1 | h1 | h1 | h1 <;> norm_num at h1 <;> omega
      · simp [queryable] at hmem
  rw [runDueTicks_succ 800 600 (f + 1) streams keysNone 0 3 _ _ hF0,
    runDueTicks_succ 800 600 (f + 1) streams keysNone 1 2 _ _ (hF1 (streams 1)),
    runDueTicks_succ 800 600 (f + 1) streams keysNone 2 1 _ _ (hF2 (streams 2)),
    runDueTicks_succ 800 600 (f + 1) streams keysNone 3 0 _ _ (hF3 (streams 3))]
  rfl

/-- Claim C1, counterexample to the claim as stated: a concrete run eating at
`(25,25)` with chain length 1.  After the eat tick plus exactly two
subsequent due ticks the chain still has length 1, not 2; when the growth
does complete (one tick later), the appended segment sits at `(125,25)`, not
at the `(25,25)` recorded at eat time. -/
theorem growth_two_ticks_counterexample :
    (runDueTicks 800 600 1 (fun _ _ => (0, 0)) keysNone 0 3
      { chain := [(-25, 25)], velocity := Direction.RIGHT, nextDir := Direction.RIGHT,
        food := (25, 25), spawnPos := (0, 0), spawnFlag := false,
        wait := true }).map (fun s => s.chain.length) = some 1 ∧
    runDueTicks 800 600 1 (fun _ _ => (0, 0)) keysNone 0 4
      { chain := [(-25, 25)], velocity := Direction.RIGHT, nextDir := Direction.RIGHT,
        food := (25, 25), spawnPos := (0, 0), spawnFlag := false, wait := true } =
      some { chain := [(175, 25), (125, 25)], velocity := Direction.RIGHT,
             nextDir := Direction.RIGHT, food := (-375, -275), spawnPos := (25, 25),
             spawnFlag := false, wait := false } ∧
    ((125 : Int), (25 : Int)) ≠ (25, 25) := by
  refine ⟨by decide, by decide, by decide⟩

/-- Claim C1, witness: the amended theorem run at the concrete eat cell
`(25,25)` with a sampler that always proposes tile `(0,0)`. -/
theorem growth_after_three_due_ticks_witness :
    runDueTicks 800 600 1 (fun _ _ => (0, 0)) keysNone 0 4
      { chain := [(-25, 25)], velocity := Direction.RIGHT, nextDir := Direction.RIGHT,
        food := (25, 25), spawnPos := (0, 0), spawnFlag := false, wait := true } =
      some { chain := [(175, 25), (125, 25)], velocity := Direction.RIGHT,
             nextDir := Direction.RIGHT, food := (-375, -275), spawnPos := (25, 25),
             spawnFlag := false, wait := false } := by
  exact growth_after_three_due_ticks 25 25 Direction.RIGHT (0, 0) (-375, -275) 0
    (fun _ _ => (0, 0)) (by norm_num) (by norm_num) (by norm_num) (by norm_num)
    (by decide) (by decide) (by decide) (by decide)

end Rusnake
